import Mathlib

/-!
Shallow embedding of the game logic of src/dino.py (textual-dino).

The embedding covers the pure game state and its per-tick transition:
the player widget (Dino), the obstacle widget (Cactus), the application
state (DinosaurGame) with its update, on_key and restart handlers, and
the timer pause/resume semantics (a paused timer does not invoke the
update callback).  Terminal rendering and widget plumbing are out of
scope; the bounding-region overlap test of the UI toolkit is modelled
as the standard axis-aligned rectangle intersection on the widgets'
offsets and sprite sizes (Dino sprites are 7x4 cells, the cactus sprite
is 6x4 cells).
-/

namespace DinoGame

/-- The player state machine values, from the DinoState literal type
at line 49 of src/dino.py. -/
inductive DinoState where
  | running : DinoState
  | jumping : DinoState
deriving DecidableEq, Repr

/-- The class attribute Dino.animations (lines 65-68): for each state,
the cycle of sprite indices into DINO_SPRITES. -/
def animations : DinoState → List Nat
  | DinoState.running => [0, 0, 0, 1, 1, 1]
  | DinoState.jumping => [2]

/-- The Dino widget (lines 52-100).  The sprite field holds the index
of the current sprite in DINO_SPRITES; x and y are the widget offset
(initially 3 10 from the DEFAULT_CSS). -/
structure Dino where
  state : DinoState
  dy : Int
  x : Int
  y : Int
  animation_index : Nat
  sprite : Nat
deriving DecidableEq, Repr

/-- A freshly constructed, freshly mounted Dino: state var defaults to
running (watchers do not fire on initialisation), dy = 0 and
animation_index = 0 from Dino.__init__, sprite initialised to
DINO_SPRITES[0], offset 3 10 from the CSS. -/
def Dino.init : Dino :=
  { state := DinoState.running, dy := 0, x := 3, y := 10,
    animation_index := 0, sprite := 0 }

/-- Dino.watch_state (lines 92-100), run by the reactive system right
after the state var changes: reset the animation index, select the
first sprite of the new state's cycle, and set dy to -1 when entering
jumping and to 0 when entering running. -/
def Dino.watch_state (d : Dino) : Dino :=
  let d1 := { d with animation_index := 0,
                     sprite := (animations d.state).getD 0 0 }
  if d1.state = DinoState.jumping then { d1 with dy := -1 }
  else { d1 with dy := 0 }

/-- Assignment to the reactive state var: the watcher fires exactly
when the value changes (var watchers are change-triggered). -/
def Dino.setState (d : Dino) (s : DinoState) : Dino :=
  if d.state = s then d
  else Dino.watch_state { d with state := s }

/-- Dino.update (lines 78-90).  Running: advance the animation index
modulo the running cycle length and select the sprite.  Jumping: land
(back to running, via the watcher) when dy > 0 and y = 10, flip dy to
+1 at the apex (dy < 0 and y = 0), and in every jumping case add dy to
the y offset afterwards (after landing, dy has been reset to 0 by the
watcher, so y is unchanged). -/
def Dino.update (d : Dino) : Dino :=
  if d.state = DinoState.running then
    let ai := (d.animation_index + 1) % (animations d.state).length
    { d with animation_index := ai,
             sprite := (animations d.state).getD ai 0 }
  else if d.state = DinoState.jumping then
    let d1 :=
      if 0 < d.dy ∧ d.y = 10 then d.setState DinoState.running
      else if d.dy < 0 ∧ d.y = 0 then { d with dy := 1 }
      else d
    { d1 with y := d1.y + d1.dy }
  else d

/-- The Cactus widget (lines 103-121): just its offset. -/
structure Cactus where
  x : Int
  y : Int
deriving DecidableEq, Repr

/-- A freshly mounted Cactus: offset 80 10 from its DEFAULT_CSS. -/
def Cactus.init : Cactus := { x := 80, y := 10 }

/-- Cactus.update (lines 117-121): when the x offset is negative the
widget removes itself (modelled as none), otherwise it moves one cell
to the left. -/
def Cactus.update (c : Cactus) : Option Cactus :=
  if c.x < 0 then none else some { c with x := c.x - 1 }

/-- Iterated Cactus.update: the trajectory of one obstacle over n
ticks in which its update is called (no game over, no collision of
this obstacle); none once the widget has removed itself. -/
def cactusIter : Nat → Cactus → Option Cactus
  | 0, c => some c
  | n + 1, c =>
    match c.update with
    | none => none
    | some c1 => cactusIter n c1

/-- Width of every DINO_SPRITES entry in cells. -/
def dinoWidth : Int := 7

/-- Height of every DINO_SPRITES entry in cells. -/
def dinoHeight : Int := 4

/-- Width of CACTUS_SPRITE in cells. -/
def cactusWidth : Int := 6

/-- Height of CACTUS_SPRITE in cells. -/
def cactusHeight : Int := 4

/-- cactus.region.overlaps(dino.region) at line 231: axis-aligned
overlap of the two widgets' rendered rectangles. -/
def collides (d : Dino) (c : Cactus) : Bool :=
  decide (d.x < c.x + cactusWidth ∧ c.x < d.x + dinoWidth ∧
          d.y < c.y + cactusHeight ∧ c.y < d.y + dinoHeight)

/-- The application state of DinosaurGame together with the widget
state it queries every tick: score and sbHighScore live on the
Scoreboard widget, dino and cacti are the mounted Dino and Cactus
widgets (in mount order, as returned by query), banners counts the
mounted GameOver widgets, and paused is the state of the tick timer. -/
structure GameState where
  gameOver : Bool
  highScore : Nat
  time : Nat
  cactusSpawnRate : Nat
  key : Option String
  paused : Bool
  score : Nat
  sbHighScore : Nat
  dino : Dino
  cacti : List Cactus
  banners : Nat
deriving DecidableEq, Repr

/-- The state right after DinosaurGame.__init__, compose and on_mount:
one Dino and one Cactus mounted, timer running. -/
def GameState.init : GameState :=
  { gameOver := false, highScore := 0, time := 0, cactusSpawnRate := 60,
    key := none, paused := false, score := 0, sbHighScore := 0,
    dino := Dino.init, cacti := [Cactus.init], banners := 0 }

/-- Membership test key in ("up", "space") on a plain string. -/
def isJumpStr (k : String) : Bool := k == "up" || k == "space"

/-- Membership test self.key in ("up", "space") on the latched key,
which may be None. -/
def isJumpKey : Option String → Bool
  | none => false
  | some k => isJumpStr k

/-- The player-controls block of DinosaurGame.update (lines 217-219):
when a jump key is latched and the dino is not already jumping, assign
state = jumping (firing the watcher). -/
def consumeInput (k : Option String) (d : Dino) : Dino :=
  if isJumpKey k then
    if d.state = DinoState.jumping then d
    else d.setState DinoState.jumping
  else d

/-- The dino after the player-controls block and dino.update() of one
tick (lines 217-221). -/
def GameState.dinoAfter (s : GameState) : Dino :=
  (consumeInput s.key s.dino).update

/-- The scoreboard score after the score block of one tick
(lines 210-211): incremented when the new time is a multiple of 3. -/
def GameState.scoreAfter (s : GameState) : Nat :=
  if (s.time + 1) % 3 = 0 then s.score + 1 else s.score

/-- The app high_score after the score block of one tick
(lines 212-213): updated from the new score exactly when that score
exceeds it. -/
def GameState.highScoreAfter (s : GameState) : Nat :=
  if (s.time + 1) % 3 = 0 ∧ s.score + 1 > s.highScore then s.score + 1
  else s.highScore

/-- The cactus list after the spawn block of one tick (lines 224-226):
a fresh Cactus is mounted (appended) when the new time is a multiple
of the spawn rate. -/
def GameState.spawnedCacti (s : GameState) : List Cactus :=
  if (s.time + 1) % s.cactusSpawnRate = 0 then s.cacti ++ [Cactus.init]
  else s.cacti

/-- The per-cactus loop of DinosaurGame.update (lines 229-237), which
has no break: every cactus is visited.  Returns the number of cacti
that overlapped the dino (each such overlap runs the game-over block
once) and the surviving cactus list: a colliding cactus is left in
place un-advanced, every other cactus runs Cactus.update (advancing or
removing itself). -/
def cactiLoop (d : Dino) : List Cactus → Nat × List Cactus
  | [] => (0, [])
  | c :: rest =>
    let r := cactiLoop d rest
    if collides d c then (r.1 + 1, c :: r.2)
    else
      match c.update with
      | none => (r.1, r.2)
      | some c1 => (r.1, c1 :: r.2)

/-- DinosaurGame.update (lines 205-240), the tick callback body:
increment time, run the score block, consume the latched input and
update the dino, possibly spawn a cactus, run the collision loop
(each collision pauses the timer, sets game over, copies high_score to
the scoreboard and mounts a GameOver banner), and finally clear the
latched key unconditionally. -/
def GameState.update (s : GameState) : GameState :=
  { gameOver := if 0 < (cactiLoop s.dinoAfter s.spawnedCacti).1 then true
                else s.gameOver,
    highScore := s.highScoreAfter,
    time := s.time + 1,
    cactusSpawnRate := s.cactusSpawnRate,
    key := none,
    paused := if 0 < (cactiLoop s.dinoAfter s.spawnedCacti).1 then true
              else s.paused,
    score := s.scoreAfter,
    sbHighScore := if 0 < (cactiLoop s.dinoAfter s.spawnedCacti).1 then
                     s.highScoreAfter
                   else s.sbHighScore,
    dino := s.dinoAfter,
    cacti := (cactiLoop s.dinoAfter s.spawnedCacti).2,
    banners := s.banners + (cactiLoop s.dinoAfter s.spawnedCacti).1 }

/-- DinosaurGame.restart (lines 242-252): remove all Desert children
(scoreboard, dino, cacti, banners), mount a fresh Scoreboard carrying
the preserved high_score, a fresh Dino and a fresh Cactus, reset time,
clear game over and resume the timer.  The latched key is NOT
cleared. -/
def GameState.restart (s : GameState) : GameState :=
  { s with score := 0, sbHighScore := s.highScore, dino := Dino.init,
           cacti := [Cactus.init], banners := 0, time := 0,
           gameOver := false, paused := false }

/-- DinosaurGame.on_key (lines 200-203): latch the key, then restart
when the game is over and the key is a jump key. -/
def GameState.onKey (s : GameState) (k : String) : GameState :=
  if s.gameOver = true ∧ isJumpStr k = true then
    GameState.restart { s with key := some k }
  else { s with key := some k }

/-- One firing opportunity of the interval timer: a paused timer does
not invoke the update callback. -/
def GameState.tick (s : GameState) : GameState :=
  if s.paused then s else s.update

/-- The two kinds of events delivered to the app by the host event
loop: a timer tick and a key press. -/
inductive Ev where
  | tick : Ev
  | key : String → Ev
deriving DecidableEq, Repr

/-- Dispatch one event. -/
def stepEv (s : GameState) : Ev → GameState
  | Ev.tick => s.tick
  | Ev.key k => s.onKey k

/-- Run a sequence of events from a state. -/
def run (s : GameState) (evs : List Ev) : GameState :=
  evs.foldl stepEv s

/-- The states reachable from the freshly mounted app by any
interleaving of timer ticks and key presses. -/
inductive Reachable : GameState → Prop where
  | init : Reachable GameState.init
  | tick {s : GameState} : Reachable s → Reachable s.tick
  | key {s : GameState} (k : String) : Reachable s → Reachable (s.onKey k)

/-- The (state, dy, y) projection of a Dino: the data that drives the
vertical motion. -/
def Dino.core (d : Dino) : DinoState × Int × Int := (d.state, d.dy, d.y)

/-- The action of Dino.update on the (state, dy, y) projection. -/
def updateCore : DinoState × Int × Int → DinoState × Int × Int
  | (DinoState.running, dy, y) => (DinoState.running, dy, y)
  | (DinoState.jumping, dy, y) =>
    if 0 < dy ∧ y = 10 then (DinoState.running, 0, y)
    else if dy < 0 ∧ y = 0 then (DinoState.jumping, 1, y + 1)
    else (DinoState.jumping, dy, y + dy)

/-- The per-dino part of the reachable-state invariant: fixed x,
dy = 0 while running, animation index inside the current cycle. -/
def DInv (d : Dino) : Prop :=
  d.x = 3 ∧ (d.state = DinoState.running → d.dy = 0) ∧
    d.animation_index < (animations d.state).length

/-- The reachable-state invariant: the game-over flag always agrees
with the timer pause flag, and the dino satisfies DInv. -/
def Inv (s : GameState) : Prop :=
  s.gameOver = s.paused ∧ DInv s.dino

/-- A state in which the player is running on the ground and no jump
key is latched: the shape preserved by every tick and every non-jump
key press. -/
def Quiet (s : GameState) : Prop :=
  s.dino.state = DinoState.running ∧ s.dino.y = 10 ∧
    ∀ k, s.key = some k → isJumpStr k = false

/-- A state with two cacti, the first overlapping the running dino at
its home position and the second far to the right. -/
def twoCactiState : GameState :=
  { GameState.init with cacti := [⟨3, 10⟩, ⟨50, 10⟩] }

/-- A dino mid-jump, just after leaving the ground. -/
def midJumpDino : Dino :=
  { state := DinoState.jumping, dy := -1, x := 3, y := 9,
    animation_index := 0, sprite := 2 }

/-- A state whose dino is mid-jump (just after leaving the ground). -/
def midJumpState : GameState :=
  { GameState.init with dino := midJumpDino }

/-- A game-over state: flag set and timer paused. -/
def overState : GameState :=
  { GameState.init with gameOver := true, paused := true, highScore := 7 }

end DinoGame

namespace DinoGame

/-! ### Helper lemmas about the Dino state machine -/

theorem Dino.watch_state_x (d : Dino) : d.watch_state.x = d.x := by
  rcases d with ⟨st, dy, x, y, ai, sp⟩
  cases st <;> rfl

theorem Dino.watch_state_y (d : Dino) : d.watch_state.y = d.y := by
  rcases d with ⟨st, dy, x, y, ai, sp⟩
  cases st <;> rfl

theorem Dino.watch_state_state (d : Dino) : d.watch_state.state = d.state := by
  rcases d with ⟨st, dy, x, y, ai, sp⟩
  cases st <;> rfl

theorem Dino.setState_x (d : Dino) (s : DinoState) : (d.setState s).x = d.x := by
  unfold Dino.setState
  split
  · rfl
  · rw [Dino.watch_state_x]

theorem Dino.update_x (d : Dino) : d.update.x = d.x := by
  unfold Dino.update
  split
  · rfl
  · split
    · show (if 0 < d.dy ∧ d.y = 10 then _ else _ : Dino).x = d.x
      split
      · exact Dino.setState_x d DinoState.running
      · split <;> rfl
    · rfl

theorem consumeInput_x (k : Option String) (d : Dino) :
    (consumeInput k d).x = d.x := by
  unfold consumeInput
  split
  · split
    · rfl
    · exact Dino.setState_x d DinoState.jumping
  · rfl

theorem Dino.update_core (d : Dino) : d.update.core = updateCore d.core := by
  rcases d with ⟨st, dy, x, y, ai, sp⟩
  cases st
  · rfl
  · by_cases h1 : 0 < dy ∧ y = 10
    · simp [Dino.update, Dino.core, updateCore, Dino.setState,
        Dino.watch_state, h1]
    · by_cases h2 : dy < 0 ∧ y = 0
      · simp [Dino.update, Dino.core, updateCore, h1, h2]
      · simp [Dino.update, Dino.core, updateCore, h1, h2]

theorem iterate_core :
    ∀ (t : Nat) (d : Dino), (Dino.update^[t] d).core = updateCore^[t] d.core
  | 0, _ => rfl
  | t + 1, d => by
    rw [Function.iterate_succ_apply, Function.iterate_succ_apply,
      iterate_core t d.update, Dino.update_core]

end DinoGame

namespace DinoGame

/-! ### The reachable-state invariant -/

theorem dinv_watch_state (d : Dino) (hx : d.x = 3) : DInv d.watch_state := by
  rcases d with ⟨st, dy, x, y, ai, sp⟩
  cases st <;>
    simp_all [DInv, Dino.watch_state, animations]

theorem dinv_setState (d : Dino) (h : DInv d) (s : DinoState) :
    DInv (d.setState s) := by
  unfold Dino.setState
  split
  · exact h
  · exact dinv_watch_state _ h.1

theorem Dino.update_running (d : Dino) (hs : d.state = DinoState.running) :
    d.update =
      { d with
          animation_index :=
            (d.animation_index + 1) % (animations DinoState.running).length,
          sprite := (animations DinoState.running).getD
            ((d.animation_index + 1) % (animations DinoState.running).length)
            0 } := by
  rcases d with ⟨st, dy, x, y, ai, sp⟩
  cases hs
  rfl

theorem Dino.update_jumping (d : Dino) (hs : d.state = DinoState.jumping) :
    d.update =
      if 0 < d.dy ∧ d.y = 10 then
        { state := DinoState.running, dy := 0, x := d.x, y := d.y,
          animation_index := 0, sprite := 0 }
      else if d.dy < 0 ∧ d.y = 0 then
        { d with dy := 1, y := d.y + 1 }
      else { d with y := d.y + d.dy } := by
  rcases d with ⟨st, dy, x, y, ai, sp⟩
  cases hs
  by_cases h1 : 0 < dy ∧ y = 10
  · simp [Dino.update, Dino.setState, Dino.watch_state, h1, animations]
  · by_cases h2 : dy < 0 ∧ y = 0
    · simp [Dino.update, h1, h2]
    · simp [Dino.update, h1, h2]

theorem dinv_update (d : Dino) (h : DInv d) : DInv d.update := by
  obtain ⟨hx, hdy, hai⟩ := h
  rcases hs : d.state with _ | _
  · rw [Dino.update_running d hs]
    refine ⟨hx, ?_, ?_⟩
    · intro _
      exact hdy hs
    · show (d.animation_index + 1) % (animations DinoState.running).length <
        (animations d.state).length
      rw [hs]
      simp only [animations, List.length_cons, List.length_nil]
      omega
  · rw [Dino.update_jumping d hs]
    by_cases h1 : 0 < d.dy ∧ d.y = 10
    · rw [if_pos h1]
      exact ⟨hx, fun _ => rfl, by simp [animations]⟩
    · rw [if_neg h1]
      by_cases h2 : d.dy < 0 ∧ d.y = 0
      · rw [if_pos h2]
        refine ⟨hx, ?_, ?_⟩
        · intro hc
          simp [hs] at hc
        · simpa [hs] using hai
      · rw [if_neg h2]
        refine ⟨hx, ?_, ?_⟩
        · intro hc
          simp [hs] at hc
        · simpa [hs] using hai

theorem dinv_consumeInput (k : Option String) (d : Dino) (h : DInv d) :
    DInv (consumeInput k d) := by
  unfold consumeInput
  split
  · split
    · exact h
    · exact dinv_setState d h DinoState.jumping
  · exact h

theorem dinv_init : DInv Dino.init := by
  refine ⟨rfl, fun _ => rfl, ?_⟩
  simp [Dino.init, animations]

theorem inv_update (s : GameState) (h : Inv s) : Inv s.update := by
  obtain ⟨hgp, hd⟩ := h
  constructor
  · show (if _ then true else s.gameOver) = (if _ then true else s.paused)
    rw [hgp]
  · exact dinv_update _ (dinv_consumeInput _ _ hd)

theorem inv_tick (s : GameState) (h : Inv s) : Inv s.tick := by
  unfold GameState.tick
  split
  · exact h
  · exact inv_update s h

theorem inv_onKey (s : GameState) (k : String) (h : Inv s) :
    Inv (s.onKey k) := by
  unfold GameState.onKey
  split
  · exact ⟨rfl, dinv_init⟩
  · exact ⟨h.1, h.2⟩

theorem inv_init : Inv GameState.init :=
  ⟨rfl, dinv_init⟩

theorem reachable_inv (s : GameState) (h : Reachable s) : Inv s := by
  induction h with
  | init => exact inv_init
  | tick _ ih => exact inv_tick _ ih
  | key k _ ih => exact inv_onKey _ k ih

/-! ### Characterisation of the collision loop -/

theorem cactiLoop_fst (d : Dino) (cs : List Cactus) :
    (cactiLoop d cs).1 = (cs.filter (fun c => collides d c)).length := by
  induction cs with
  | nil => rfl
  | cons c rest ih =>
    by_cases hc : collides d c = true
    · simp [cactiLoop, hc, ih, List.filter_cons]
    · cases hcu : c.update <;>
        simp [cactiLoop, hc, hcu, ih, List.filter_cons]

theorem cactiLoop_snd (d : Dino) (cs : List Cactus) :
    (cactiLoop d cs).2 =
      cs.filterMap (fun c => if collides d c then some c else c.update) := by
  induction cs with
  | nil => rfl
  | cons c rest ih =>
    by_cases hc : collides d c = true
    · simp [cactiLoop, hc, ih, List.filterMap_cons]
    · cases hcu : c.update <;>
        simp [cactiLoop, hc, hcu, ih, List.filterMap_cons]

end DinoGame

namespace DinoGame

/-! ### Claim theorems -/

theorem Dino.core_fst (d : Dino) : d.core.1 = d.state := rfl

theorem Dino.core_y (d : Dino) : d.core.2.2 = d.y := rfl

/-- C2: for a player in the Running state at ground offset y = 10, a
single latched jump input produces a symmetric arc: y decreases by 1
per tick for 10 ticks from 10 to 0, then increases by 1 per tick for
10 ticks from 0 back to 10, then the state returns to Running on the
next tick; the player is in the Jumping state for exactly 20 ticks.
Tick t of the jump is the t-th Dino.update after the latched input has
set the state to jumping. -/
theorem c2_jump_arc (d : Dino) (k : String) (hk : isJumpStr k = true)
    (hs : d.state = DinoState.running) (hy : d.y = 10) :
    (∀ t, t ≤ 10 →
      (Dino.update^[t] (consumeInput (some k) d)).y = 10 - (t : Int)) ∧
    (∀ t, 11 ≤ t → t ≤ 20 →
      (Dino.update^[t] (consumeInput (some k) d)).y = (t : Int) - 10) ∧
    (∀ t, t ≤ 20 →
      (Dino.update^[t] (consumeInput (some k) d)).state =
        DinoState.jumping) ∧
    (Dino.update^[21] (consumeInput (some k) d)).state =
      DinoState.running ∧
    (Dino.update^[21] (consumeInput (some k) d)).y = 10 := by
  have hj : consumeInput (some k) d =
      Dino.watch_state { d with state := DinoState.jumping } := by
    simp [consumeInput, isJumpKey, hk, Dino.setState, hs]
  have hcore : (consumeInput (some k) d).core =
      (DinoState.jumping, -1, 10) := by
    rw [hj]
    simp [Dino.core, Dino.watch_state, hy]
  have hiter : ∀ t, (Dino.update^[t] (consumeInput (some k) d)).core =
      updateCore^[t] (DinoState.jumping, -1, 10) := by
    intro t
    rw [iterate_core t, hcore]
  have key1 : ∀ t, t ≤ 10 →
      (updateCore^[t] (DinoState.jumping, -1, 10)).2.2 = 10 - (t : Int) := by
    decide
  have key2 : ∀ t, t ≤ 20 → 11 ≤ t →
      (updateCore^[t] (DinoState.jumping, -1, 10)).2.2 = (t : Int) - 10 := by
    decide
  have key3 : ∀ t, t ≤ 20 →
      (updateCore^[t] (DinoState.jumping, -1, 10)).1 = DinoState.jumping := by
    decide
  have key4 : (updateCore^[21] (DinoState.jumping, -1, 10)).1 =
      DinoState.running ∧
      (updateCore^[21] (DinoState.jumping, -1, 10)).2.2 = 10 := by
    decide
  refine ⟨?_, ?_, ?_, ?_, ?_⟩
  · intro t ht
    rw [← Dino.core_y, hiter t]
    exact key1 t ht
  · intro t h1 h2
    rw [← Dino.core_y, hiter t]
    exact key2 t h2 h1
  · intro t ht
    rw [← Dino.core_fst, hiter t]
    exact key3 t ht
  · rw [← Dino.core_fst, hiter 21]
    exact key4.1
  · rw [← Dino.core_y, hiter 21]
    exact key4.2

/-- Witness for c2_jump_arc: the fresh player, jump key "up", sampled
at the apex entry (tick 10), mid-descent (tick 15) and the landing
tick 21. -/
theorem c2_jump_arc_witness :
    (Dino.update^[10] (consumeInput (some "up") Dino.init)).y =
      10 - ((10 : Nat) : Int) ∧
    (Dino.update^[15] (consumeInput (some "up") Dino.init)).y =
      ((15 : Nat) : Int) - 10 ∧
    (Dino.update^[21] (consumeInput (some "up") Dino.init)).state =
      DinoState.running :=
  ⟨(c2_jump_arc Dino.init "up" (by decide) rfl rfl).1 10 (by decide),
   (c2_jump_arc Dino.init "up" (by decide) rfl rfl).2.1 15 (by decide)
     (by decide),
   (c2_jump_arc Dino.init "up" (by decide) rfl rfl).2.2.2.1⟩

/-- While an obstacle still has enough room before the left edge, n
update ticks move it exactly n cells left and never remove it. -/
theorem cactusIter_live (n : Nat) :
    ∀ c : Cactus, (n : Int) ≤ c.x + 1 →
      cactusIter n c = some { x := c.x - (n : Int), y := c.y } := by
  induction n with
  | zero =>
    intro c _
    simp [cactusIter]
  | succ n ih =>
    intro c hn
    have hx : ¬c.x < 0 := by
      push_cast at hn
      omega
    have hupd : c.update = some { c with x := c.x - 1 } := by
      simp [Cactus.update, hx]
    have ih1 := ih { c with x := c.x - 1 } (by push_cast at hn ⊢; omega)
    simp only [cactusIter, hupd, ih1, Option.some.injEq, Cactus.mk.injEq]
    constructor
    · push_cast
      ring
    · trivial

/-- Splitting an iterated cactus trajectory at an intermediate tick
count. -/
theorem cactusIter_add (m n : Nat) :
    ∀ c : Cactus, cactusIter (m + n) c =
      match cactusIter m c with
      | none => none
      | some c1 => cactusIter n c1 := by
  induction m with
  | zero =>
    intro c
    simp [cactusIter]
  | succ m ih =>
    intro c
    have hmn : m + 1 + n = (m + n) + 1 := by omega
    rw [hmn]
    show (match c.update with
      | none => none
      | some c1 => cactusIter (m + n) c1) = _
    cases hcu : c.update
    · simp [cactusIter, hcu]
    · simp [cactusIter, hcu, ih]

/-- C3 counterexample: after exactly 81 update ticks the obstacle
spawned at x = 80 sits at x = -1 but has NOT been removed yet (its
trajectory is still a live cactus, not none); the removal happens on
the 82nd tick.  This refutes the claim that the obstacle is removed
after exactly 81 such ticks. -/
theorem c3_counterexample :
    cactusIter 81 Cactus.init = some { x := -1, y := 10 } ∧
    cactusIter 82 Cactus.init = none := by
  have h81 : cactusIter 81 Cactus.init = some { x := -1, y := 10 } := by
    have h := cactusIter_live 81 Cactus.init (by norm_num [Cactus.init])
    simpa [Cactus.init] using h
  refine ⟨h81, ?_⟩
  have h := cactusIter_add 81 1 Cactus.init
  rw [show (81 : Nat) + 1 = 82 from rfl] at h
  rw [h, h81]
  rfl

/-- C3 (amended): an obstacle spawned at x = 80 decrements its x by
exactly 1 on each of its first 81 update ticks, reaching x = -1 after
exactly 81 ticks; it is destroyed on the 82nd tick, the first update
on which its x is already negative. -/
theorem c3_cactus_trajectory :
    (∀ n, n ≤ 81 →
      cactusIter n Cactus.init = some { x := 80 - (n : Int), y := 10 }) ∧
    cactusIter 82 Cactus.init = none := by
  constructor
  · intro n hn
    have h := cactusIter_live n Cactus.init
      (by simp only [Cactus.init]; push_cast; omega)
    simpa [Cactus.init] using h
  · have h81 : cactusIter 81 Cactus.init = some { x := -1, y := 10 } := by
      have h := cactusIter_live 81 Cactus.init (by norm_num [Cactus.init])
      simpa [Cactus.init] using h
    have h := cactusIter_add 81 1 Cactus.init
    rw [show (81 : Nat) + 1 = 82 from rfl] at h
    rw [h, h81]
    rfl

/-- Witness for c3_cactus_trajectory at n = 81: the obstacle is still
alive at x = -1 after 81 ticks. -/
theorem c3_cactus_trajectory_witness :
    cactusIter 81 Cactus.init =
      some { x := 80 - ((81 : Nat) : Int), y := 10 } :=
  c3_cactus_trajectory.1 81 (by decide)

/-- C5: restart resets the elapsed tick counter to 0, the score to 0
and the game-over flag to false (resuming the timer), leaves exactly
one freshly spawned obstacle at the spawn position x = 80, recreates
the player fresh in the Running state at the ground offset y = 10, and
leaves the app high score equal to its pre-restart value. -/
theorem c5_restart_resets (s : GameState) :
    (s.restart).time = 0 ∧ (s.restart).score = 0 ∧
    (s.restart).gameOver = false ∧ (s.restart).paused = false ∧
    (s.restart).cacti = [Cactus.init] ∧
    (s.restart).dino = Dino.init ∧
    Dino.init.state = DinoState.running ∧ Dino.init.y = 10 ∧
    Cactus.init.x = 80 ∧
    (s.restart).highScore = s.highScore :=
  ⟨rfl, rfl, rfl, rfl, rfl, rfl, rfl, rfl, rfl, rfl⟩

end DinoGame

namespace DinoGame

/-- A tick of a timer that is not paused runs the update callback. -/
theorem tick_not_paused (s : GameState) (h : s.paused = false) :
    s.tick = s.update := by
  unfold GameState.tick
  rw [h]
  simp

/-- C1 counterexample: in a tick where the first obstacle collides
with the player, game over is set and the timer is paused, yet the
second (non-colliding) obstacle IS still evaluated and advanced from
x = 50 to x = 49 in that same tick.  This refutes the claim that the
remaining obstacles are not evaluated further and that no advance step
completes for that tick. -/
theorem c1_counterexample :
    (GameState.update twoCactiState).gameOver = true ∧
    (GameState.update twoCactiState).cacti =
      [{ x := 3, y := 10 }, { x := 49, y := 10 }] := by
  constructor
  · decide
  · decide

/-- C1 (amended): on a tick in which at least one obstacle collides,
game over is set, the timer is paused and the scoreboard receives the
current high score, and the colliding obstacles themselves are not
advanced; but the loop still evaluates every obstacle: each
non-colliding obstacle is advanced (or removed) in that same tick, and
the game-over block runs once per colliding obstacle, mounting one
game-over banner each, so the resulting flags agree with the
single-collision case while the banner count does not. -/
theorem c1_collision_tick (s : GameState)
    (h : 0 < (cactiLoop s.dinoAfter s.spawnedCacti).1) :
    (GameState.update s).gameOver = true ∧
    (GameState.update s).paused = true ∧
    (GameState.update s).sbHighScore = s.highScoreAfter ∧
    (GameState.update s).cacti =
      s.spawnedCacti.filterMap
        (fun c => if collides s.dinoAfter c then some c else c.update) ∧
    (GameState.update s).banners =
      s.banners +
        (s.spawnedCacti.filter (fun c => collides s.dinoAfter c)).length := by
  refine ⟨?_, ?_, ?_, ?_, ?_⟩
  · show (if 0 < (cactiLoop s.dinoAfter s.spawnedCacti).1 then true
          else s.gameOver) = true
    rw [if_pos h]
  · show (if 0 < (cactiLoop s.dinoAfter s.spawnedCacti).1 then true
          else s.paused) = true
    rw [if_pos h]
  · show (if 0 < (cactiLoop s.dinoAfter s.spawnedCacti).1 then
            s.highScoreAfter
          else s.sbHighScore) = s.highScoreAfter
    rw [if_pos h]
  · exact cactiLoop_snd s.dinoAfter s.spawnedCacti
  · show s.banners + (cactiLoop s.dinoAfter s.spawnedCacti).1 = _
    rw [cactiLoop_fst]

/-- Witness for c1_collision_tick at the two-cactus state: the first
cactus collides, so the amended description of the collision tick is
realised there. -/
theorem c1_collision_tick_witness :
    (GameState.update twoCactiState).gameOver = true ∧
    (GameState.update twoCactiState).paused = true ∧
    (GameState.update twoCactiState).sbHighScore =
      twoCactiState.highScoreAfter ∧
    (GameState.update twoCactiState).cacti =
      twoCactiState.spawnedCacti.filterMap
        (fun c => if collides twoCactiState.dinoAfter c then some c
                  else c.update) ∧
    (GameState.update twoCactiState).banners =
      twoCactiState.banners +
        (twoCactiState.spawnedCacti.filter
          (fun c => collides twoCactiState.dinoAfter c)).length :=
  c1_collision_tick twoCactiState (by decide)

/-- C4: for every tick sequence, the score increases by exactly 1 on
every third tick while the session is not game-over; a tick fired
while game-over (hence paused) never changes the score; the app high
score never decreases across ticks and is unchanged by any key event
(including the restart path); and whenever a tick changes the high
score, the new value is the new score and strictly exceeded the old
high score. -/
theorem c4_score_highscore :
    (∀ s : GameState, Reachable s → s.gameOver = false →
      (s.tick).score =
        (if (s.time + 1) % 3 = 0 then s.score + 1 else s.score)) ∧
    (∀ s : GameState, Reachable s → s.gameOver = true →
      (s.tick).score = s.score) ∧
    (∀ s : GameState, s.highScore ≤ (s.tick).highScore) ∧
    (∀ (s : GameState) (k : String),
      (s.onKey k).highScore = s.highScore) ∧
    (∀ s : GameState, (s.tick).highScore = s.highScore ∨
      ((s.tick).highScore = (s.tick).score ∧
        s.highScore < (s.tick).score)) := by
  refine ⟨?_, ?_, ?_, ?_, ?_⟩
  · intro s hr hg
    have hp : s.paused = false := by
      rw [← (reachable_inv s hr).1, hg]
    rw [tick_not_paused s hp]
    rfl
  · intro s hr hg
    have hp : s.paused = true := by
      rw [← (reachable_inv s hr).1, hg]
    simp [GameState.tick, hp]
  · intro s
    unfold GameState.tick
    split
    · exact le_refl _
    · show s.highScore ≤ s.highScoreAfter
      unfold GameState.highScoreAfter
      split
      · next h => omega
      · exact le_refl _
  · intro s k
    unfold GameState.onKey
    split
    · rfl
    · rfl
  · intro s
    unfold GameState.tick
    split
    · left
      rfl
    · show s.highScoreAfter = s.highScore ∨
        (s.highScoreAfter = s.scoreAfter ∧ s.highScore < s.scoreAfter)
      unfold GameState.highScoreAfter GameState.scoreAfter
      split
      · next h =>
          right
          rw [if_pos h.1]
          exact ⟨rfl, h.2⟩
      · left
        rfl

/-- Witness for c4_score_highscore at the initial state (reachable,
not game over): the first tick leaves the score at 0 because 1 is not
a multiple of 3, and the high score does not decrease. -/
theorem c4_score_highscore_witness :
    (GameState.init.tick).score =
      (if (GameState.init.time + 1) % 3 = 0 then GameState.init.score + 1
       else GameState.init.score) ∧
    GameState.init.highScore ≤ (GameState.init.tick).highScore :=
  ⟨c4_score_highscore.1 GameState.init Reachable.init rfl,
   c4_score_highscore.2.2.1 GameState.init⟩

end DinoGame

namespace DinoGame

/-- A tick preserves the Quiet shape: with no jump key latched the
dino stays running at the ground offset and the latch is cleared. -/
theorem quiet_tick (s : GameState) (h : Quiet s) : Quiet s.tick := by
  obtain ⟨hst, hy, hk⟩ := h
  unfold GameState.tick
  split
  · exact ⟨hst, hy, hk⟩
  · have hkey : isJumpKey s.key = false := by
      cases hks : s.key with
      | none => rfl
      | some v => exact hk v hks
    have hdA : s.dinoAfter = s.dino.update := by
      simp [GameState.dinoAfter, consumeInput, hkey]
    refine ⟨?_, ?_, ?_⟩
    · show s.dinoAfter.state = DinoState.running
      rw [hdA, Dino.update_running s.dino hst]
      exact hst
    · show s.dinoAfter.y = 10
      rw [hdA, Dino.update_running s.dino hst]
      exact hy
    · intro k hk2
      cases hk2

/-- A non-jump key press preserves the Quiet shape. -/
theorem quiet_onKey (s : GameState) (k : String)
    (hk : isJumpStr k = false) (h : Quiet s) : Quiet (s.onKey k) := by
  obtain ⟨hst, hy, hkk⟩ := h
  unfold GameState.onKey
  rw [if_neg (by simp [hk])]
  refine ⟨hst, hy, ?_⟩
  intro k2 hk2
  simp only [Option.some.injEq] at hk2
  rw [← hk2]
  exact hk

/-- Running a sequence of events none of which latches a jump key
preserves the Quiet shape. -/
theorem quiet_run (evs : List Ev) :
    ∀ s : GameState, Quiet s →
      (∀ k, Ev.key k ∈ evs → isJumpStr k = false) →
      Quiet (run s evs) := by
  induction evs with
  | nil =>
    intro s h _
    exact h
  | cons e rest ih =>
    intro s h hks
    show Quiet (run (stepEv s e) rest)
    apply ih
    · cases e with
      | tick => exact quiet_tick s h
      | key k => exact quiet_onKey s k (hks k (by simp)) h
    · intro k hk2
      exact hks k (List.mem_cons_of_mem _ hk2)

/-- C6: for every event sequence from the initial state in which no
jump key is ever latched (ticks and non-jump key presses only), the
player's y offset is at the ground offset 10 after every step. -/
theorem c6_no_jump_grounded (evs : List Ev)
    (h : ∀ k, Ev.key k ∈ evs → isJumpStr k = false) :
    (run GameState.init evs).dino.y = 10 :=
  (quiet_run evs GameState.init
    ⟨rfl, rfl, fun _ hk => by cases hk⟩ h).2.1

/-- Witness for c6_no_jump_grounded: two ticks around a non-jump key
press leave the player on the ground. -/
theorem c6_no_jump_grounded_witness :
    (run GameState.init [Ev.tick, Ev.key "a", Ev.tick]).dino.y = 10 :=
  c6_no_jump_grounded [Ev.tick, Ev.key "a", Ev.tick] (by
    intro k hk
    simp only [List.mem_cons, List.not_mem_nil, or_false] at hk
    rcases hk with hk | hk | hk
    · cases hk
    · cases hk
      decide
    · cases hk)

/-- C7: a jump input latched while the player is already Jumping has
no effect at all: the whole tick produces exactly the same state as a
tick with no latched key.  Moreover the player-controls block changes
the dino only when the state is Running and a jump key is latched, and
then it changes it to Jumping: the Running-to-Jumping transition fires
only from Running. -/
theorem c7_jump_guard :
    (∀ (s : GameState) (k : String), isJumpStr k = true →
      s.dino.state = DinoState.jumping →
      GameState.update { s with key := some k } =
        GameState.update { s with key := none }) ∧
    (∀ (k : Option String) (d : Dino), consumeInput k d ≠ d →
      d.state = DinoState.running ∧ isJumpKey k = true ∧
      (consumeInput k d).state = DinoState.jumping) := by
  constructor
  · intro s k hk hj
    have h1 : consumeInput (some k) s.dino = s.dino := by
      simp [consumeInput, isJumpKey, hk, hj]
    have h2 : consumeInput none s.dino = s.dino := rfl
    simp [GameState.update, GameState.dinoAfter, GameState.spawnedCacti,
      GameState.scoreAfter, GameState.highScoreAfter, h1, h2]
  · intro k d hne
    unfold consumeInput at hne ⊢
    by_cases hjk : isJumpKey k = true
    · rw [if_pos hjk] at hne ⊢
      by_cases hj : d.state = DinoState.jumping
      · rw [if_pos hj] at hne
        exact absurd rfl hne
      · rw [if_neg hj] at hne ⊢
        have hrun : d.state = DinoState.running := by
          cases hd : d.state
          · rfl
          · exact absurd hd hj
        refine ⟨hrun, hjk, ?_⟩
        unfold Dino.setState
        rw [if_neg hj, Dino.watch_state_state]
    · rw [if_neg hjk] at hne
      exact absurd rfl hne

/-- Witness for c7_jump_guard: at the mid-jump state, a tick with the
latched up key equals a tick with no key; and the fresh running player
is moved to Jumping by a latched up key. -/
theorem c7_jump_guard_witness :
    GameState.update { midJumpState with key := some "up" } =
      GameState.update { midJumpState with key := none } ∧
    Dino.init.state = DinoState.running ∧
    isJumpKey (some "up") = true ∧
    (consumeInput (some "up") Dino.init).state = DinoState.jumping :=
  ⟨c7_jump_guard.1 midJumpState "up" (by decide) rfl,
   c7_jump_guard.2 (some "up") Dino.init (by decide)⟩

/-- C8: in every reachable state the player's vertical velocity dy is
0 whenever the state is Running (dy is nonzero only while Jumping),
and the animation index lies strictly within the bounds of the current
state's animation cycle. -/
theorem c8_running_dy_zero (s : GameState) (h : Reachable s) :
    (s.dino.state = DinoState.running → s.dino.dy = 0) ∧
    s.dino.animation_index < (animations s.dino.state).length :=
  ⟨(reachable_inv s h).2.2.1, (reachable_inv s h).2.2.2⟩

/-- Witness for c8_running_dy_zero at the initial state. -/
theorem c8_running_dy_zero_witness :
    (GameState.init.dino.state = DinoState.running →
      GameState.init.dino.dy = 0) ∧
    GameState.init.dino.animation_index <
      (animations GameState.init.dino.state).length :=
  c8_running_dy_zero GameState.init Reachable.init

/-- C9: in every reachable state the player's x offset is 3, and no
tick of the game loop ever changes the player's x offset (the update
callback preserves it in every state, paused or not). -/
theorem c9_fixed_x :
    (∀ s : GameState, Reachable s → s.dino.x = 3) ∧
    (∀ s : GameState, (GameState.update s).dino.x = s.dino.x) ∧
    (∀ s : GameState, (s.tick).dino.x = s.dino.x) := by
  refine ⟨?_, ?_, ?_⟩
  · intro s h
    exact (reachable_inv s h).2.1
  · intro s
    show s.dinoAfter.x = s.dino.x
    unfold GameState.dinoAfter
    rw [Dino.update_x, consumeInput_x]
  · intro s
    unfold GameState.tick
    split
    · rfl
    · show s.dinoAfter.x = s.dino.x
      unfold GameState.dinoAfter
      rw [Dino.update_x, consumeInput_x]

/-- Witness for c9_fixed_x at the initial state. -/
theorem c9_fixed_x_witness :
    GameState.init.dino.x = 3 ∧
    (GameState.update GameState.init).dino.x = GameState.init.dino.x :=
  ⟨c9_fixed_x.1 GameState.init Reachable.init,
   c9_fixed_x.2.1 GameState.init⟩

/-- C10: a jump key pressed while game-over triggers a restart, and
restart does not clear the latched key; so right after the restart the
key is still latched, the player is fresh (Running), the timer is
resumed, and the very first tick of the new session consumes the stale
key as a jump input: the fresh player transitions to Jumping without
any new key press. -/
theorem c10_restart_key_latched (s : GameState) (k : String)
    (hg : s.gameOver = true) (hk : isJumpStr k = true) :
    (s.onKey k).key = some k ∧
    (s.onKey k).dino = Dino.init ∧
    (s.onKey k).paused = false ∧
    ((s.onKey k).tick).dino.state = DinoState.jumping := by
  have hcond : s.gameOver = true ∧ isJumpStr k = true := ⟨hg, hk⟩
  unfold GameState.onKey
  rw [if_pos hcond]
  refine ⟨rfl, rfl, rfl, ?_⟩
  rw [tick_not_paused _ rfl]
  show ((consumeInput (some k) Dino.init).update).state = DinoState.jumping
  have hci : consumeInput (some k) Dino.init =
      { state := DinoState.jumping, dy := -1, x := 3, y := 10,
        animation_index := 0, sprite := 2 } := by
    unfold consumeInput
    rw [show isJumpKey (some k) = true from hk]
    rfl
  rw [hci]
  rfl

/-- Witness for c10_restart_key_latched: a game-over state, restart by
the space key, first tick of the new session jumps. -/
theorem c10_restart_key_latched_witness :
    (overState.onKey "space").key = some "space" ∧
    (overState.onKey "space").dino = Dino.init ∧
    (overState.onKey "space").paused = false ∧
    ((overState.onKey "space").tick).dino.state = DinoState.jumping :=
  c10_restart_key_latched overState "space" rfl (by decide)

end DinoGame
